import Mathlib

/-!
Shallow embedding of the Flappy Bird arcade game and its leaderboard store.

Sources: src/unnamed/part_000 (the responsive variant, which the spec follows) and
src/src/App.jsx (a fixed-size near-duplicate with identical simulation logic).
Definitions below are transcribed from part_000; line references point into that file.

Modelling conventions:
* JS numbers are modelled as exact rationals.  Every numeric value the simulation
  produces is a small multiple of 1/2 (gravity 0.5, all other constants integers),
  hence exactly representable as an IEEE double, so ℚ models the JS float
  arithmetic of this program exactly.
* The per-frame Math.random() draw used when a pipe spawns is passed in as an
  explicit parameter r (with 0 ≤ r < 1 corresponding to Math.random()'s range).
* localStorage.getItem returns null or a string; it is modelled as Option String.
  JSON.parse is modelled by an executable parser returning Except, since JSON.parse
  throws on malformed input; JSON numbers are modelled as integers (every number
  this program ever persists is an integer: the score and Date.now()).
* The rendering code inside gameLoop (canvas drawing) mutates no simulation state
  and is omitted; gameLoop below is exactly the state-mutating part of the source
  gameLoop callback.
-/

set_option maxRecDepth 40000

namespace FlappyBird

/-- Game constants, part_000 lines 26-31. -/
def BIRD_SIZE : ℚ := 34

/-- Pipe width constant, part_000 line 27. -/
def PIPE_WIDTH : ℚ := 60

/-- Vertical gap between the top and bottom pipe, part_000 line 28. -/
def PIPE_GAP : ℚ := 160

/-- Gravity applied to the vertical velocity once per tick, part_000 line 29. -/
def GRAVITY : ℚ := 1/2

/-- Velocity set (not added) by a flap, part_000 line 30. -/
def JUMP_STRENGTH : ℚ := -9

/-- Horizontal speed of every pipe in px per tick, part_000 line 31. -/
def PIPE_SPEED : ℚ := 3

/-- A leaderboard entry as built by saveScore, part_000 lines 41-45:
score, date (new Date().toLocaleDateString), and the Date.now() identity token. -/
structure Entry where
  score : ℤ
  date : String
  id : ℤ
  deriving DecidableEq

/-- The order imposed by the saveScore comparator (a, b) => b.score - a.score:
entry a sorts no later than entry b exactly when b.score ≤ a.score. -/
def entryGe (a b : Entry) : Prop := b.score ≤ a.score

instance : DecidableRel entryGe := fun a b => inferInstanceAs (Decidable (b.score ≤ a.score))

instance : IsTotal Entry entryGe := ⟨fun a b => le_total b.score a.score⟩

instance : IsTrans Entry entryGe := ⟨fun _ _ _ hab hbc => le_trans hbc hab⟩

/-- JS Array#sort with the comparator (a, b) => b.score - a.score, part_000 line 47.
Array#sort is stable (ECMAScript 2019), and the result of a stable sort is uniquely
determined by the comparator and the input order, so it is extensionally insertion
sort with respect to entryGe (insertion sort is stable: an element is inserted
before the first strictly smaller score, i.e. after all earlier equal scores). -/
def sortByScoreDesc (l : List Entry) : List Entry := l.insertionSort entryGe

/-- saveScore, part_000 lines 39-51, with the loaded leaderboard and the ambient
date / Date.now() values passed explicitly: append the new entry, stable-sort by
descending score, truncate to the top 10.  (The localStorage write persists the
returned list unchanged.) -/
def saveScore (leaderboard : List Entry) (score : ℤ) (date : String) (id : ℤ) :
    List Entry :=
  (sortByScoreDesc (leaderboard ++ [{ score := score, date := date, id := id }])).take 10

/-- JSON values, the result type of the JSON.parse model.  Numbers are modelled as
integers (see the module comment). -/
inductive Json where
  | null
  | bool (b : Bool)
  | num (n : ℤ)
  | str (s : String)
  | arr (elems : List Json)
  | obj (members : List (String × Json))

/-- JSON whitespace. -/
def isWsChar (c : Char) : Bool := c = ' ' || c = '\n' || c = '\t' || c = '\r'

/-- Drop leading JSON whitespace. -/
def skipWs : List Char → List Char
  | [] => []
  | c :: cs => if isWsChar c then skipWs cs else c :: cs

/-- Consume an expected literal tail (e.g. "ull" after the n of null). -/
def dropLit : List Char → List Char → Option (List Char)
  | [], input => some input
  | l :: ls, c :: cs => if c = l then dropLit ls cs else none
  | _ :: _, [] => none

/-- Consume a run of decimal digits into an accumulator. -/
def parseDigitsAux : ℕ → List Char → ℕ × List Char
  | acc, [] => (acc, [])
  | acc, c :: cs =>
    if c.isDigit then parseDigitsAux (acc * 10 + (c.toNat - 48)) cs else (acc, c :: cs)

/-- Consume the body of a string literal up to the closing quote.  Escape
sequences are not modelled: no string this program persists contains one. -/
def parseStringAux : List Char → List Char → Option (String × List Char)
  | _, [] => none
  | acc, c :: cs =>
    if c = '"' then some (String.mk acc.reverse, cs) else parseStringAux (c :: acc) cs

mutual

/-- Fuel-indexed JSON value parser: null, booleans, integers, strings, arrays and
objects, rejecting any other input, as JSON.parse does. -/
def parseValue : ℕ → List Char → Option (Json × List Char)
  | 0, _ => none
  | fuel + 1, input =>
    match skipWs input with
    | [] => none
    | c :: cs =>
      if c = 'n' then (dropLit ['u', 'l', 'l'] cs).map (fun rest => (Json.null, rest))
      else if c = 't' then (dropLit ['r', 'u', 'e'] cs).map (fun rest => (Json.bool true, rest))
      else if c = 'f' then
        (dropLit ['a', 'l', 's', 'e'] cs).map (fun rest => (Json.bool false, rest))
      else if c = '"' then (parseStringAux [] cs).map (fun sr => (Json.str sr.1, sr.2))
      else if c = '-' then
        match cs with
        | [] => none
        | d :: ds =>
          if d.isDigit then
            let nr := parseDigitsAux 0 (d :: ds)
            some (Json.num (-(nr.1 : ℤ)), nr.2)
          else none
      else if c.isDigit then
        let nr := parseDigitsAux 0 (c :: cs)
        some (Json.num (nr.1 : ℤ), nr.2)
      else if c = '[' then
        match skipWs cs with
        | ']' :: rest => some (Json.arr [], rest)
        | other => (parseElems fuel other).map (fun er => (Json.arr er.1, er.2))
      else if c = '\x7b' then
        match skipWs cs with
        | '\x7d' :: rest => some (Json.obj [], rest)
        | other => (parseMembers fuel other).map (fun mr => (Json.obj mr.1, mr.2))
      else none

/-- Comma-separated array elements followed by the closing bracket. -/
def parseElems : ℕ → List Char → Option (List Json × List Char)
  | 0, _ => none
  | fuel + 1, input =>
    match parseValue fuel input with
    | none => none
    | some (v, rest) =>
      match skipWs rest with
      | ',' :: more => (parseElems fuel more).map (fun er => (v :: er.1, er.2))
      | ']' :: more => some ([v], more)
      | _ => none

/-- Comma-separated object members followed by the closing brace. -/
def parseMembers : ℕ → List Char → Option (List (String × Json) × List Char)
  | 0, _ => none
  | fuel + 1, input =>
    match skipWs input with
    | '"' :: cs =>
      match parseStringAux [] cs with
      | none => none
      | some (key, rest) =>
        match skipWs rest with
        | ':' :: afterColon =>
          match parseValue fuel afterColon with
          | none => none
          | some (v, rest2) =>
            match skipWs rest2 with
            | ',' :: more => (parseMembers fuel more).map (fun mr => ((key, v) :: mr.1, mr.2))
            | '\x7d' :: more => some ([(key, v)], more)
            | _ => none
        | _ => none
    | _ => none

end

/-- JSON.parse model: parse one value (with ample fuel) and require only trailing
whitespace after it; anything else raises a SyntaxError, modelled as Except.error. -/
def jsonParse (s : String) : Except String Json :=
  match parseValue (s.length + 1) s.data with
  | some (v, rest) =>
    if (skipWs rest).isEmpty then Except.ok v else Except.error "Unexpected token"
  | none => Except.error "Unexpected token"

/-- getLeaderboard, part_000 lines 34-37:
data = localStorage.getItem('flappyLeaderboard'); return data ? JSON.parse(data) : [].
A null (absent) or empty-string value is falsy and yields the empty array; any other
stored string is handed to JSON.parse, whose failures propagate to the caller. -/
def getLeaderboard (stored : Option String) : Except String Json :=
  match stored with
  | none => Except.ok (Json.arr [])
  | some data => if data.isEmpty then Except.ok (Json.arr []) else jsonParse data

/-- The game-state machine of part_000: gameState ∈ 'ready' | 'playing' | 'gameover'. -/
inductive Mode where
  | ready
  | playing
  | gameover
  deriving DecidableEq

/-- birdRef.current, part_000 line 71: vertical position, vertical velocity,
and the cosmetic rotation. -/
structure Bird where
  y : ℚ
  velocity : ℚ
  rotation : ℚ
  deriving DecidableEq

/-- One pipe pair as pushed by the spawner, part_000 lines 144-148. -/
structure Pipe where
  x : ℚ
  topHeight : ℚ
  passed : Bool
  deriving DecidableEq

/-- Playfield dimensions, part_000 getGameDimensions. -/
structure Dims where
  width : ℚ
  height : ℚ
  deriving DecidableEq

/-- getGameDimensions, part_000 lines 16-24: pick the playfield size from
window.innerWidth. -/
def getGameDimensions (innerWidth : ℕ) : Dims :=
  if 1440 ≤ innerWidth then { width := 800, height := 900 }
  else if 1024 ≤ innerWidth then { width := 600, height := 800 }
  else { width := 400, height := 600 }

/-- The complete mutable simulation state of part_000: gameState, birdRef,
pipesRef, frameCountRef and scoreRef (score and scoreRef always agree). -/
structure GameState where
  mode : Mode
  bird : Bird
  pipes : List Pipe
  frameCount : ℕ
  score : ℕ
  deriving DecidableEq

/-- An axis-aligned rectangle, as used by the collision checks. -/
structure Rect where
  left : ℚ
  right : ℚ
  top : ℚ
  bottom : ℚ

/-- The bird hitbox, part_000 lines 166-171: the nominal BIRD_SIZE box centred at
(100, y), inset by 4 px on every side. -/
def birdRect (y : ℚ) : Rect :=
  { left := 100 - BIRD_SIZE/2 + 4, right := 100 + BIRD_SIZE/2 - 4,
    top := y - BIRD_SIZE/2 + 4, bottom := y + BIRD_SIZE/2 - 4 }

/-- Axis-aligned overlap test, part_000 lines 193-194 and 197-198. -/
def overlaps (a b : Rect) : Prop :=
  a.left < b.right ∧ a.right > b.left ∧ a.top < b.bottom ∧ a.bottom > b.top

instance (a b : Rect) : Decidable (overlaps a b) :=
  inferInstanceAs (Decidable (a.left < b.right ∧ a.right > b.left ∧ a.top < b.bottom ∧ a.bottom > b.top))

/-- The top hazard column of a pipe, part_000 lines 180-185. -/
def pipeTopRect (p : Pipe) : Rect :=
  { left := p.x, right := p.x + PIPE_WIDTH, top := 0, bottom := p.topHeight }

/-- The bottom hazard column of a pipe, part_000 lines 186-191. -/
def pipeBottomRect (dims : Dims) (p : Pipe) : Rect :=
  { left := p.x, right := p.x + PIPE_WIDTH, top := p.topHeight + PIPE_GAP, bottom := dims.height }

/-- The bird (at vertical position y) overlaps either hazard column of pipe p,
part_000 lines 179-201. -/
def hitsPipe (dims : Dims) (y : ℚ) (p : Pipe) : Prop :=
  overlaps (birdRect y) (pipeTopRect p) ∨ overlaps (birdRect y) (pipeBottomRect dims p)

instance (dims : Dims) (y : ℚ) (p : Pipe) : Decidable (hitsPipe dims y p) :=
  inferInstanceAs (Decidable (_ ∨ _))

/-- The pipe pushed by the spawner, part_000 lines 140-148: x starts at the right
edge, topHeight = Math.floor(Math.random() * (maxHeight - minHeight) + minHeight)
with minHeight = 50 and maxHeight = height - PIPE_GAP - minHeight - 100, and the
scored flag starts false.  r is the Math.random() draw. -/
def spawnPipe (dims : Dims) (r : ℚ) : Pipe :=
  { x := dims.width,
    topHeight := ((⌊r * ((dims.height - PIPE_GAP - 50 - 100) - 50) + 50⌋ : ℤ) : ℚ),
    passed := false }

/-- The pipe update filter, part_000 lines 152-163, which runs left to right over
the live pipes: move each pipe left by PIPE_SPEED; if it has not been scored and
its trailing edge has passed the bird x (pipe.x + PIPE_WIDTH < 100), mark it
scored and increment the score; keep it exactly when pipe.x > -PIPE_WIDTH. -/
def updatePipes : List Pipe → ℕ → List Pipe × ℕ
  | [], score => ([], score)
  | pipe :: rest, score =>
    let moved : Pipe := { pipe with x := pipe.x - PIPE_SPEED }
    let par : Pipe × ℕ :=
      if moved.passed = false ∧ moved.x + PIPE_WIDTH < 100 then
        ({ moved with passed := true }, score + 1)
      else (moved, score)
    let tail := updatePipes rest par.2
    (if -PIPE_WIDTH < par.1.x then par.1 :: tail.1 else tail.1, tail.2)

/-- One simulation tick: the state-mutating core of the gameLoop callback,
part_000 lines 132-202 (drawing omitted; the loop stop at line 295 is subsumed by
the gate on gameState === 'playing', which leaves every non-playing state
untouched).  In source order: Euler physics and rotation (132-136), frame-count
increment and pipe spawning (139-149), pipe advance / scoring / culling (152-163),
ground collision (173-176) and pipe collision (178-201) against the updated
positions.  r is the Math.random() draw used if a pipe spawns this tick. -/
def gameLoop (dims : Dims) (r : ℚ) (s : GameState) : GameState :=
  if s.mode = Mode.playing then
    let velocity := s.bird.velocity + GRAVITY
    let y := s.bird.y + velocity
    let rotation := min (max (velocity * 3) (-30)) 90
    let frameCount := s.frameCount + 1
    let spawned := if frameCount % 100 = 0 then s.pipes ++ [spawnPipe dims r] else s.pipes
    let upd := updatePipes spawned s.score
    let dead := y + BIRD_SIZE/2 ≥ dims.height - 20 ∨ ∃ p ∈ upd.1, hitsPipe dims y p
    { mode := if dead then Mode.gameover else Mode.playing,
      bird := { y := y, velocity := velocity, rotation := rotation },
      pipes := upd.1,
      frameCount := frameCount,
      score := upd.2 }
  else s

/-- n consecutive ticks. -/
def gameLoopN (dims : Dims) (r : ℚ) : ℕ → GameState → GameState
  | 0, s => s
  | n + 1, s => gameLoopN dims r n (gameLoop dims r s)

/-- jump, part_000 lines 313-320: from ready, start playing and set the velocity
to JUMP_STRENGTH; from playing, set the velocity to JUMP_STRENGTH; otherwise do
nothing. -/
def jump (s : GameState) : GameState :=
  if s.mode = Mode.ready then
    { s with mode := Mode.playing, bird := { s.bird with velocity := JUMP_STRENGTH } }
  else if s.mode = Mode.playing then
    { s with bird := { s.bird with velocity := JUMP_STRENGTH } }
  else s

/-- resetGame, part_000 lines 348-359: if the ended run scored, commit the score
via saveScore (returning the updated leaderboard); recentre the bird with zero
velocity, clear the pipes, zero the frame count and score, and return to ready. -/
def resetGame (dims : Dims) (s : GameState) (leaderboard : List Entry)
    (date : String) (id : ℤ) : GameState × List Entry :=
  let lb := if 0 < s.score then saveScore leaderboard (s.score : ℤ) date id else leaderboard
  ({ mode := Mode.ready,
     bird := { y := dims.height / 2, velocity := 0, rotation := 0 },
     pipes := [],
     frameCount := 0,
     score := 0 }, lb)

/-- The dimensions state together with the simulation state, for the resize
handler. -/
structure AppState where
  dims : Dims
  game : GameState
  deriving DecidableEq

/-- handleResize, part_000 lines 78-82: recompute the dimensions from the new
window.innerWidth and set birdRef.current.y to the new centre height — nothing
else is touched, and the assignment is not gated on the game state. -/
def handleResize (innerWidth : ℕ) (s : AppState) : AppState :=
  let newDims := getGameDimensions innerWidth
  { dims := newDims,
    game := { s.game with bird := { s.game.bird with y := newDims.height / 2 } } }

/-- The gap-top invariant of the spec: minGap ≤ topHeight ≤ height - gapSize -
minGap - groundMargin, with the code constants minGap = 50, gapSize = PIPE_GAP,
groundMargin = 100. -/
def gapInv (dims : Dims) (p : Pipe) : Prop :=
  50 ≤ p.topHeight ∧ p.topHeight ≤ dims.height - PIPE_GAP - 50 - 100

instance (dims : Dims) (p : Pipe) : Decidable (gapInv dims p) :=
  inferInstanceAs (Decidable (_ ∧ _))

/-- The 400 × 600 playfield of the spec scenarios (window.innerWidth < 1024). -/
def dims400 : Dims := { width := 400, height := 600 }

/-- The initial simulation state: gameState 'ready', bird centred with zero
velocity (part_000 lines 62, 71-74). -/
def initState (dims : Dims) : GameState :=
  { mode := Mode.ready,
    bird := { y := dims.height / 2, velocity := 0, rotation := 0 },
    pipes := [],
    frameCount := 0,
    score := 0 }

/-- Flap schedule of the concrete demonstration run for the pipe-timing scenario:
a jump is applied right before ticks 1, 2, 37, 72, 107, 142, 177 and 212.  The
first flap starts the game; the rest keep the bird flying safely through the gap
of every pipe (all random draws are 1/2, giving topHeight 170 and a gap from 170
to 330 on the 400 × 600 playfield). -/
def flapTicks : List ℕ := [0, 1, 36, 71, 106, 141, 176, 211]

/-- The demonstration run: starting from the initial ready state on the 400 × 600
playfield, before the (n+1)-st tick a flap is applied when n is in flapTicks, and
every spawn uses the random draw 1/2. -/
def demoRun : ℕ → GameState
  | 0 => initState dims400
  | n + 1 =>
    let s := demoRun n
    gameLoop dims400 (1/2) (if n ∈ flapTicks then jump s else s)

/-- The free-fall run of the spec scenario: mode already playing, bird at
height/2 = 300 with zero velocity, and no flap ever applied (the random draw is
irrelevant: the run ends long before the first spawn at tick 100). -/
def fallRun : ℕ → GameState
  | 0 => { mode := Mode.playing,
           bird := { y := 300, velocity := 0, rotation := 0 },
           pipes := [],
           frameCount := 0,
           score := 0 }
  | n + 1 => gameLoop dims400 (1/2) (fallRun n)

/-- A tick leaves any non-playing state untouched: part_000 line 133 gates every
state mutation on gameState === 'playing'. -/
theorem gameLoop_frozen (dims : Dims) (r : ℚ) (s : GameState) (h : s.mode ≠ Mode.playing) :
    gameLoop dims r s = s := by
  simp [gameLoop, h]

/-- C3: for every state with mode = GameOver, every subsequent tick leaves the
bird position, every obstacle position, and the score unchanged — indeed the
whole state is frozen (confirmed). -/
theorem gameover_ticks_inert (dims : Dims) (r : ℚ) (s : GameState)
    (h : s.mode = Mode.gameover) (n : ℕ) :
    gameLoopN dims r n s = s ∧
    (gameLoopN dims r n s).bird.y = s.bird.y ∧
    (gameLoopN dims r n s).pipes.map Pipe.x = s.pipes.map Pipe.x ∧
    (gameLoopN dims r n s).score = s.score := by
  have hne : s.mode ≠ Mode.playing := by rw [h]; exact fun hc => Mode.noConfusion hc
  have key : gameLoopN dims r n s = s := by
    induction n with
    | zero => rfl
    | succ k ih =>
      show gameLoopN dims r k (gameLoop dims r s) = s
      rw [gameLoop_frozen dims r s hne]
      exact ih
  exact ⟨key, by rw [key], by rw [key], by rw [key]⟩

/-- Witness for the frozen-terminal-state theorem at a concrete game-over state. -/
theorem gameover_ticks_inert_witness :
    gameLoopN dims400 (1/2) 5
      { mode := Mode.gameover, bird := { y := 564, velocity := 16, rotation := 48 },
        pipes := [{ x := 100, topHeight := 170, passed := false }],
        frameCount := 32, score := 0 } =
      { mode := Mode.gameover, bird := { y := 564, velocity := 16, rotation := 48 },
        pipes := [{ x := 100, topHeight := 170, passed := false }],
        frameCount := 32, score := 0 } :=
  (gameover_ticks_inert dims400 (1/2) _ rfl 5).1

/-- C7: while playing, a flap sets the velocity to exactly JUMP_STRENGTH
regardless of the current velocity (it is not added), so repeated flaps are
idempotent (confirmed). -/
theorem flap_sets_velocity (s : GameState) (h : s.mode = Mode.playing) :
    (jump s).bird.velocity = JUMP_STRENGTH ∧ jump (jump s) = jump s := by
  have hr : s.mode ≠ Mode.ready := by rw [h]; exact fun hc => Mode.noConfusion hc
  constructor
  · simp [jump, h, hr]
  · simp [jump, h, hr]

/-- Witness for the flap theorem at a concrete playing state with velocity 5. -/
theorem flap_sets_velocity_witness :
    (jump { mode := Mode.playing, bird := { y := 300, velocity := 5, rotation := 0 },
            pipes := [], frameCount := 0, score := 0 }).bird.velocity = JUMP_STRENGTH ∧
    jump (jump { mode := Mode.playing, bird := { y := 300, velocity := 5, rotation := 0 },
                 pipes := [], frameCount := 0, score := 0 }) =
      jump { mode := Mode.playing, bird := { y := 300, velocity := 5, rotation := 0 },
             pipes := [], frameCount := 0, score := 0 } :=
  flap_sets_velocity _ rfl

/-- C10: every resize recentres the bird vertically to newHeight/2 regardless of
mode (including mid-flight while playing), and leaves velocity, mode, score,
obstacles and frame counter unchanged (confirmed). -/
theorem resize_recentres_bird (innerWidth : ℕ) (s : AppState) :
    (handleResize innerWidth s).game.bird.y = (getGameDimensions innerWidth).height / 2 ∧
    (handleResize innerWidth s).game.bird.velocity = s.game.bird.velocity ∧
    (handleResize innerWidth s).game.mode = s.game.mode ∧
    (handleResize innerWidth s).game.score = s.game.score ∧
    (handleResize innerWidth s).game.pipes = s.game.pipes ∧
    (handleResize innerWidth s).game.frameCount = s.game.frameCount ∧
    (handleResize innerWidth s).dims = getGameDimensions innerWidth :=
  ⟨rfl, rfl, rfl, rfl, rfl, rfl, rfl⟩

/-- C2 counterexample: in a run realising the scenario (400 px playfield, flaps
keeping the bird alive, no collision through tick 200), the first obstacle spawns
during tick 100 at x = 400, yet exactly 100 ticks after its spawn tick (at tick
200) its position is 97, not 100 — it already advances PIPE_SPEED within its
spawn tick, so it reaches the bird x earlier. -/
theorem firstPipe_position_at_tick200 :
    (demoRun 99).pipes = [] ∧
    (demoRun 100).pipes.map Pipe.x = [397] ∧
    (demoRun 200).mode = Mode.playing ∧
    (demoRun 200).pipes.map Pipe.x = [97, 397] ∧
    ((demoRun 200).pipes.map Pipe.x).head? ≠ some 100 := by decide!

/-- C2 amended: the first obstacle spawns during tick 100 (and has already moved
to 397 by the end of that tick); it reaches the bird x = 100 at tick 199, i.e. 99
ticks after its spawn tick; its scoring condition (trailing edge past the bird x)
first holds at tick 220, incrementing the score from 0 to 1 while the run is
still playing (no collision occurred). -/
theorem firstPipe_timing :
    (demoRun 99).pipes = [] ∧
    (demoRun 100).pipes.map Pipe.x = [397] ∧
    (demoRun 199).pipes.map Pipe.x = [100] ∧
    (demoRun 219).score = 0 ∧
    (demoRun 220).score = 1 ∧
    (demoRun 220).pipes.map (fun p => (p.x, p.passed)) = [(37, true), (337, false)] ∧
    (demoRun 220).mode = Mode.playing := by decide!

/-- From tick 32 on, the free-fall run is locked in game over. -/
theorem fallRun_gameover_of_ge (n : ℕ) (h : 32 ≤ n) : (fallRun n).mode = Mode.gameover := by
  induction n, h using Nat.le_induction with
  | base => decide!
  | succ k hk ih =>
    show (gameLoop dims400 (1/2) (fallRun k)).mode = Mode.gameover
    rw [gameLoop_frozen dims400 (1/2) (fallRun k) (by rw [ih]; exact fun hc => Mode.noConfusion hc)]
    exact ih

/-- Before tick 32 the free-fall run is still playing, with the exact discrete
Euler sums for velocity and position. -/
theorem fallRun_playing_of_lt : ∀ n, n < 32 →
    (fallRun n).mode = Mode.playing ∧
    (fallRun n).bird.velocity = (n : ℚ) * (1/2) ∧
    (fallRun n).bird.y = 300 + (n : ℚ) * ((n : ℚ) + 1) / 4 := by decide!

/-- C8 amended: starting from a bird at height/2 = 300 with zero velocity under
gravity 1/2 and no flap, after n ticks of Playing the velocity is n/2 and the
position is 300 + n(n+1)/4 (the discrete Euler sum); the run is playing exactly
while n < 32 and game over exactly from n = 32 on, and n = 32 is exactly the
first tick at which the bird's nominal bottom edge y + BIRD_SIZE/2 (not the
inset hitbox edge) reaches the ground line height - 20 = 580. -/
theorem no_flap_euler_fall (n : ℕ) :
    ((fallRun n).mode = Mode.playing →
      (fallRun n).bird.velocity = (n : ℚ) * (1/2) ∧
      (fallRun n).bird.y = 300 + (n : ℚ) * ((n : ℚ) + 1) / 4) ∧
    ((fallRun n).mode = Mode.playing ↔ n < 32) ∧
    ((fallRun n).mode = Mode.gameover ↔ 32 ≤ n) ∧
    ((600 : ℚ) - 20 ≤ 300 + (n : ℚ) * ((n : ℚ) + 1) / 4 + BIRD_SIZE / 2 ↔ 32 ≤ n) := by
  have hplay : (fallRun n).mode = Mode.playing ↔ n < 32 := by
    constructor
    · intro hp
      by_contra hlt
      have hg := fallRun_gameover_of_ge n (Nat.le_of_not_lt hlt)
      rw [hp] at hg
      exact Mode.noConfusion hg
    · intro hlt
      exact (fallRun_playing_of_lt n hlt).1
  refine ⟨?_, hplay, ?_, ?_⟩
  · intro hp
    have hlt := hplay.mp hp
    exact ⟨(fallRun_playing_of_lt n hlt).2.1, (fallRun_playing_of_lt n hlt).2.2⟩
  · constructor
    · intro hg
      by_contra hge
      have hp := (fallRun_playing_of_lt n (Nat.lt_of_not_le hge)).1
      rw [hg] at hp
      exact Mode.noConfusion hp
    · exact fallRun_gameover_of_ge n
  · have hBS : BIRD_SIZE = (34 : ℚ) := rfl
    constructor
    · intro hineq
      by_contra hge
      have hn : n ≤ 31 := Nat.le_of_lt_succ (Nat.lt_of_not_le hge)
      have hq : (n : ℚ) ≤ 31 := by exact_mod_cast hn
      have hq0 : (0 : ℚ) ≤ (n : ℚ) := by positivity
      rw [hBS] at hineq
      nlinarith
    · intro hge
      have hq : (32 : ℚ) ≤ (n : ℚ) := by exact_mod_cast hge
      rw [hBS]
      nlinarith

/-- Witness for the Euler-fall theorem at tick 10 of the free-fall run. -/
theorem no_flap_euler_fall_witness :
    (fallRun 10).bird.velocity = ((10 : ℕ) : ℚ) * (1/2) ∧
    (fallRun 10).bird.y = 300 + ((10 : ℕ) : ℚ) * (((10 : ℕ) : ℚ) + 1) / 4 :=
  (no_flap_euler_fall 10).1 (by decide!)

/-- C8 counterexample: the free-fall run transitions to GameOver at tick 32, when
the nominal bottom edge y + BIRD_SIZE/2 = 581 has reached the ground line 580 but
the 4 px inset hitbox bottom edge y + BIRD_SIZE/2 - 4 = 577 has not: termination
does not wait for the hitbox edge to reach height - groundMargin. -/
theorem fall_gameover_before_hitbox_reaches_ground :
    (fallRun 31).mode = Mode.playing ∧
    (fallRun 32).mode = Mode.gameover ∧
    (fallRun 32).bird.y + BIRD_SIZE / 2 ≥ 600 - 20 ∧
    (fallRun 32).bird.y + (BIRD_SIZE / 2 - 4) < 600 - 20 := by decide!

/-- C9: the ground check in gameLoop (part_000 line 174) uses the bird's nominal
bottom edge y + BIRD_SIZE/2, not the 4 px inset hitbox used for pipe collision:
whenever the post-physics position lands with its nominal bottom edge at or below
the ground line but its inset bottom edge still above it (a 4 px band of
positions, available at every tick), the tick ends the run although the inset
hitbox bottom is above the ground line (confirmed). -/
theorem ground_check_uses_nominal_edge (dims : Dims) (r : ℚ) (s : GameState)
    (h : s.mode = Mode.playing)
    (h1 : s.bird.y + (s.bird.velocity + GRAVITY) + BIRD_SIZE / 2 ≥ dims.height - 20)
    (h2 : s.bird.y + (s.bird.velocity + GRAVITY) + (BIRD_SIZE / 2 - 4) < dims.height - 20) :
    (gameLoop dims r s).mode = Mode.gameover ∧
    (gameLoop dims r s).bird.y + (BIRD_SIZE / 2 - 4) < dims.height - 20 := by
  unfold gameLoop
  rw [if_pos h]
  dsimp only
  refine ⟨?_, h2⟩
  rw [if_pos (Or.inl h1)]

/-- Witness for the nominal-edge ground check at a concrete in-band state. -/
theorem ground_check_uses_nominal_edge_witness :
    (gameLoop dims400 (1/2)
      { mode := Mode.playing, bird := { y := 560, velocity := 3, rotation := 0 },
        pipes := [], frameCount := 0, score := 0 }).mode = Mode.gameover ∧
    (gameLoop dims400 (1/2)
      { mode := Mode.playing, bird := { y := 560, velocity := 3, rotation := 0 },
        pipes := [], frameCount := 0, score := 0 }).bird.y + (BIRD_SIZE / 2 - 4) <
      dims400.height - 20 :=
  ground_check_uses_nominal_edge dims400 (1/2) _ rfl (by decide!) (by decide!)

/-- C1 counterexample: a present but malformed stored value is handed to
JSON.parse, which throws — the failure propagates to the caller instead of
degrading to the empty list. -/
theorem getLeaderboard_malformed_throws :
    getLeaderboard (some "oops") = Except.error "Unexpected token" ∧
    getLeaderboard (some "oops") ≠ Except.ok (Json.arr []) :=
  ⟨rfl, fun hc => nomatch hc⟩

/-- C1 amended: absent (null) or empty stored data yields the empty list and
cannot fail; any other stored string is handed to JSON.parse, so well-formed
stored JSON is returned parsed (e.g. the empty array) while malformed stored data
raises a parse error that propagates to the caller. -/
theorem getLeaderboard_spec :
    getLeaderboard none = Except.ok (Json.arr []) ∧
    getLeaderboard (some "") = Except.ok (Json.arr []) ∧
    (∀ data : String, data.isEmpty = false → getLeaderboard (some data) = jsonParse data) ∧
    getLeaderboard (some "[]") = Except.ok (Json.arr []) ∧
    getLeaderboard (some "oops") = Except.error "Unexpected token" := by
  refine ⟨rfl, rfl, ?_, rfl, rfl⟩
  intro data hne
  simp [getLeaderboard, hne]

/-- Witness for the load behaviour on a nonempty stored string. -/
theorem getLeaderboard_spec_witness :
    getLeaderboard (some "[1]") = jsonParse "[1]" :=
  getLeaderboard_spec.2.2.1 "[1]" rfl

/-- The pipe update filter only moves pipes horizontally and flips scored flags:
any property of the gap-top height satisfied by every input pipe is satisfied by
every surviving pipe. -/
theorem updatePipes_preserve (P : ℚ → Prop) :
    ∀ (l : List Pipe) (n : ℕ), (∀ p ∈ l, P p.topHeight) →
      ∀ p ∈ (updatePipes l n).1, P p.topHeight := by
  intro l
  induction l with
  | nil => intro n _ p hp; simp [updatePipes] at hp
  | cons a t ih =>
    intro n hall p hp
    have htail : ∀ m, ∀ q ∈ (updatePipes t m).1, P q.topHeight :=
      fun m => ih m (fun q hq => hall q (List.mem_cons_of_mem a hq))
    have hhead : P a.topHeight := hall a (List.mem_cons_self a t)
    simp only [updatePipes] at hp
    split at hp
    · dsimp only at hp
      split at hp
      · rcases List.mem_cons.mp hp with hpe | hpt
        · subst hpe
          exact hhead
        · exact htail _ p hpt
      · exact htail _ p hp
    · dsimp only at hp
      split at hp
      · rcases List.mem_cons.mp hp with hpe | hpt
        · subst hpe
          exact hhead
        · exact htail _ p hpt
      · exact htail _ p hp

/-- Every playfield produced by getGameDimensions is at least 360 px tall, so the
legal gap-top range is nonempty. -/
theorem getGameDimensions_height_ge (w : ℕ) : (360 : ℚ) ≤ (getGameDimensions w).height := by
  unfold getGameDimensions
  by_cases h1 : 1440 ≤ w
  · simp only [if_pos h1]
    norm_num
  · by_cases h2 : 1024 ≤ w
    · simp only [if_neg h1, if_pos h2]
      norm_num
    · simp only [if_neg h1, if_neg h2]
      norm_num

/-- A freshly spawned pipe satisfies the gap-top invariant, for any random draw
in the Math.random() range [0, 1) and any playfield at least 360 px tall. -/
theorem spawnPipe_gapInv (dims : Dims) (r : ℚ) (hh : (360 : ℚ) ≤ dims.height)
    (h0 : 0 ≤ r) (h1 : r < 1) : gapInv dims (spawnPipe dims r) := by
  unfold gapInv spawnPipe
  dsimp only
  have hd : (0 : ℚ) ≤ (dims.height - PIPE_GAP - 50 - 100) - 50 := by
    unfold PIPE_GAP
    linarith
  constructor
  · have hv : (50 : ℚ) ≤ r * ((dims.height - PIPE_GAP - 50 - 100) - 50) + 50 := by
      have := mul_nonneg h0 hd
      linarith
    have hfl : (50 : ℤ) ≤ ⌊r * ((dims.height - PIPE_GAP - 50 - 100) - 50) + 50⌋ :=
      Int.le_floor.mpr (by exact_mod_cast hv)
    exact_mod_cast hfl
  · have hub : r * ((dims.height - PIPE_GAP - 50 - 100) - 50) + 50 ≤
        dims.height - PIPE_GAP - 50 - 100 := by
      have := mul_le_mul_of_nonneg_right (le_of_lt h1) hd
      linarith
    calc ((⌊r * ((dims.height - PIPE_GAP - 50 - 100) - 50) + 50⌋ : ℤ) : ℚ)
        ≤ r * ((dims.height - PIPE_GAP - 50 - 100) - 50) + 50 := Int.floor_le _
      _ ≤ dims.height - PIPE_GAP - 50 - 100 := hub

/-- C4: for every window width and every Math.random() draw, a spawned obstacle's
gap-top height lies in [50, height - PIPE_GAP - 50 - 100], and one tick of the
game loop preserves this invariant for every live obstacle (gap-top heights are
fixed at creation), so it holds for an obstacle's whole lifetime (confirmed). -/
theorem pipe_gap_invariant (w : ℕ) (r : ℚ) (h0 : 0 ≤ r) (h1 : r < 1) :
    gapInv (getGameDimensions w) (spawnPipe (getGameDimensions w) r) ∧
    ∀ s : GameState, (∀ p ∈ s.pipes, gapInv (getGameDimensions w) p) →
      ∀ p ∈ (gameLoop (getGameDimensions w) r s).pipes, gapInv (getGameDimensions w) p := by
  have hspawn := spawnPipe_gapInv (getGameDimensions w) r (getGameDimensions_height_ge w) h0 h1
  refine ⟨hspawn, ?_⟩
  intro s hall p hp
  by_cases hm : s.mode = Mode.playing
  · unfold gameLoop at hp
    rw [if_pos hm] at hp
    dsimp only at hp
    have hall2 : ∀ q ∈ (if (s.frameCount + 1) % 100 = 0 then
        s.pipes ++ [spawnPipe (getGameDimensions w) r] else s.pipes),
        50 ≤ q.topHeight ∧ q.topHeight ≤ (getGameDimensions w).height - PIPE_GAP - 50 - 100 := by
      intro q hq
      by_cases hf : (s.frameCount + 1) % 100 = 0
      · rw [if_pos hf] at hq
        rcases List.mem_append.mp hq with hq1 | hq2
        · exact hall q hq1
        · rw [List.mem_singleton.mp hq2]
          exact hspawn
      · rw [if_neg hf] at hq
        exact hall q hq
    exact updatePipes_preserve
      (fun th => 50 ≤ th ∧ th ≤ (getGameDimensions w).height - PIPE_GAP - 50 - 100)
      _ _ hall2 p hp
  · rw [gameLoop_frozen _ _ _ hm] at hp
    exact hall p hp

/-- Witness for the gap invariant at window width 500 and the draw 1/2 (a 400 by
600 playfield; the spawned gap-top height is 170). -/
theorem pipe_gap_invariant_witness :
    gapInv (getGameDimensions 500) (spawnPipe (getGameDimensions 500) (1/2)) :=
  (pipe_gap_invariant 500 (1/2) (by norm_num) (by norm_num)).1

/-- C5: after a run ending with a positive score, resetGame commits the score:
the resulting leaderboard is the stable descending sort of the previous entries
plus a new entry carrying the run's score, the current date and the Date.now()
identity token, truncated to the top 10 — so its length is min(10,
previousLength + 1) and it is sorted by descending score (confirmed). -/
theorem reset_commits_score (dims : Dims) (s : GameState) (lb : List Entry)
    (date : String) (id : ℤ) (h : 0 < s.score) :
    (resetGame dims s lb date id).2 =
      (sortByScoreDesc (lb ++ [{ score := (s.score : ℤ), date := date, id := id }])).take 10 ∧
    (resetGame dims s lb date id).2.length = min 10 (lb.length + 1) ∧
    List.Sorted entryGe (resetGame dims s lb date id).2 := by
  have heq : (resetGame dims s lb date id).2 =
      (sortByScoreDesc (lb ++ [{ score := (s.score : ℤ), date := date, id := id }])).take 10 := by
    unfold resetGame
    dsimp only
    rw [if_pos h]
    rfl
  refine ⟨heq, ?_, ?_⟩
  · rw [heq]
    unfold sortByScoreDesc
    rw [List.length_take, List.length_insertionSort]
    simp
  · rw [heq]
    unfold sortByScoreDesc
    exact List.Pairwise.sublist (List.take_sublist 10 _) (List.sorted_insertionSort entryGe _)

/-- Witness for the reset-commit theorem: an empty prior leaderboard and a run
that scored 5 yield a one-entry leaderboard. -/
theorem reset_commits_score_witness :
    (resetGame dims400
      { mode := Mode.gameover, bird := { y := 564, velocity := 16, rotation := 48 },
        pipes := [], frameCount := 32, score := 5 }
      ([] : List Entry) "01.01.2026" 7).2.length = min 10 (([] : List Entry).length + 1) :=
  (reset_commits_score dims400 _ ([] : List Entry) "01.01.2026" 7 (by decide)).2.1

/-- C6: saving a score of 50 onto a full leaderboard of ten entries all scoring
50 places the new entry after every existing equal entry (the stable sort leaves
the appended list unchanged), and the truncation to ten then drops it: the
result is exactly the previous ten entries (confirmed). -/
theorem save_tie_truncation (lb : List Entry) (date : String) (id : ℤ)
    (hlen : lb.length = 10) (hall : ∀ e ∈ lb, e.score = 50) :
    sortByScoreDesc (lb ++ [{ score := 50, date := date, id := id }]) =
      lb ++ [{ score := 50, date := date, id := id }] ∧
    saveScore lb 50 date id = lb ∧
    (saveScore lb 50 date id).length = 10 := by
  have hall2 : ∀ e ∈ lb ++ [{ score := 50, date := date, id := id }], e.score = (50 : ℤ) := by
    intro e he
    rcases List.mem_append.mp he with h1 | h2
    · exact hall e h1
    · rw [List.mem_singleton.mp h2]
  have hpw : List.Pairwise entryGe (lb ++ [{ score := 50, date := date, id := id }]) :=
    List.pairwise_of_forall_mem_list (fun a ha b hb => by
      unfold entryGe
      rw [hall2 a ha, hall2 b hb])
  have h1 : sortByScoreDesc (lb ++ [{ score := 50, date := date, id := id }]) =
      lb ++ [{ score := 50, date := date, id := id }] := by
    unfold sortByScoreDesc
    exact List.Sorted.insertionSort_eq hpw
  have h2 : saveScore lb 50 date id = lb := by
    unfold saveScore
    rw [h1, ← hlen]
    exact List.take_left lb _
  exact ⟨h1, h2, by rw [h2, hlen]⟩

/-- Witness for the tie-truncation theorem on a concrete full leaderboard of ten
score-50 entries. -/
theorem save_tie_truncation_witness :
    saveScore (List.replicate 10 { score := 50, date := "01.01.2026", id := 1 }) 50 "02.01.2026" 11 =
      List.replicate 10 { score := 50, date := "01.01.2026", id := 1 } :=
  (save_tie_truncation _ "02.01.2026" 11 (by decide) (by decide)).2.1

end FlappyBird
